import Mathlib

/-
  Verification of the story-state and generation-orchestration core of the
  RE : ZERO interactive-fiction engine.

  The Python sources embedded here:
    - src/zero/common/adventure.py  (class Adventure: the Story aggregate)
    - src/zero/common/utils.py      (get_save_name)
    - src/zero/main/ui/play.py      (PlayScreen: generation orchestration,
                                     send thread, selection resolution)
    - src/zero/main/app.py          (App.save_adventure / App.load_adventure)
-/

namespace ReZero

/-- The Story aggregate from `src/zero/common/adventure.py` (`class Adventure`):
`name`, `context` and `memory` strings plus the `actions` and `results` lists.
The Python constructor defaults `name` and `context` to `None`; we model the
populated state where both are strings (Python string truthiness makes the
empty string behave like `None` in every place the code tests `self.context`). -/
structure Adventure where
  name : String
  context : String
  memory : String
  actions : List String
  results : List String
deriving DecidableEq

/-- The inner loop of the comprehension in `Adventure.story`
(`[s for p in zip(self.actions, self.results) for s in p]`): each zipped pair
is flattened into its two components in order. -/
def pairFlatten : List (String × String) → List String
  | [] => []
  | p :: ps => p.1 :: p.2 :: pairFlatten ps

/-- Embeds `Adventure.story` (adventure.py, lines 32-39): user actions and AI results
interleaved, starting with the first action; Python `zip` truncates to the
shorter of the two lists. -/
def storyOf (adv : Adventure) : List String :=
  pairFlatten (adv.actions.zip adv.results)

/-- Embeds the expression `[self.context] if self.context else []`: the optional context prefix used
by `full_story` and `get_ai_story`; a Python string is falsy iff empty. -/
def ctxList (adv : Adventure) : List String :=
  if adv.context = "" then [] else [adv.context]

/-- Embeds `Adventure.full_story` (adventure.py, lines 41-49): the context (when
non-empty) followed by the interleaved story. -/
def full_story (adv : Adventure) : List String :=
  ctxList adv ++ storyOf adv

/-- One bound of a Python list slice `l[i:j]` (positive step): a negative
index is offset by the list length and clamped below at zero (`Int.toNat` of
a negative integer is zero); a nonnegative index is clamped above at the
length. -/
def pySliceIdx (n : Nat) (i : Int) : Nat :=
  if i < 0 then (i + n).toNat else min i.toNat n

/-- Python list slice `l[i:j]` with the default step of one. -/
def pySlice (l : List String) (i j : Int) : List String :=
  let a := pySliceIdx l.length i
  let b := pySliceIdx l.length j
  (l.drop a).take (b - a)

/-- Embeds `Adventure.get_ai_story` (adventure.py, lines 51-65): `start` defaults to
`0`, `end` defaults to `len(self.story)`; returns the optional context, then
the memory string, then `self.story[start:end]`. -/
def get_ai_story (adv : Adventure) (startArg endArg : Option Int) : List String :=
  let story := storyOf adv
  let s : Int := startArg.getD 0
  let e : Int := endArg.getD (story.length : Int)
  ctxList adv ++ [adv.memory] ++ pySlice story s e

/- ### Basic facts about the interleaved story -/

theorem pairFlatten_zip_length (a r : List String) :
    (pairFlatten (a.zip r)).length = 2 * min a.length r.length := by
  induction a generalizing r with
  | nil => simp [pairFlatten]
  | cons x xs ih =>
    cases r with
    | nil => simp [pairFlatten]
    | cons y ys =>
      rw [List.zip_cons_cons]
      simp only [pairFlatten, List.length_cons]
      rw [ih ys]
      omega

theorem pairFlatten_zip_get (a r : List String) (i : Nat)
    (ha : i < a.length) (hr : i < r.length) :
    (pairFlatten (a.zip r))[2 * i]? = a[i]? ∧
    (pairFlatten (a.zip r))[2 * i + 1]? = r[i]? := by
  induction a generalizing r i with
  | nil => simp at ha
  | cons x xs ih =>
    cases r with
    | nil => simp at hr
    | cons y ys =>
      cases i with
      | zero => simp [pairFlatten]
      | succ j =>
        have h2 : 2 * (j + 1) = 2 * j + 1 + 1 := by omega
        rw [h2, List.zip_cons_cons]
        simp only [pairFlatten, List.getElem?_cons_succ]
        exact ih ys j (by simpa using ha) (by simpa using hr)

theorem zip_take_left (a r : List String) :
    a.zip r = (a.take r.length).zip r := by
  induction a generalizing r with
  | nil => simp
  | cons x xs ih =>
    cases r with
    | nil => simp
    | cons y ys => simp [List.zip_cons_cons, ih ys]

/- ### Save-name sanitization (src/zero/common/utils.py, get_save_name) -/

/-- The whitespace class matched by `str.strip()` and the regex `\s` in
`get_save_name`, restricted to ASCII (the save names the program handles);
space, tab, newline, vertical tab, form feed, carriage return. -/
def pySpace (c : Char) : Bool :=
  c == ' ' || c == '\t' || c == '\n' || c == '\x0b' || c == '\x0c' || c == '\r'

/-- The character class kept by the second substitution in `get_save_name`:
the regex deletes every character outside `[a-zA-Z0-9_-]`. -/
def allowedChar (c : Char) : Bool :=
  ('a' ≤ c && c ≤ 'z') || ('A' ≤ c && c ≤ 'Z') || ('0' ≤ c && c ≤ '9') ||
    c == '_' || c == '-'

/-- Python `str.strip()`: drop whitespace from both ends. -/
def stripChars (l : List Char) : List Char :=
  ((l.dropWhile pySpace).reverse.dropWhile pySpace).reverse

/-- Embeds the first substitution in `get_save_name`: every maximal run of
whitespace becomes a single underscore. The boolean flag records whether we
are inside a run already consumed. -/
def collapseRuns : Bool → List Char → List Char
  | _, [] => []
  | inRun, c :: cs =>
    if pySpace c then
      if inRun then collapseRuns true cs
      else '_' :: collapseRuns true cs
    else c :: collapseRuns false cs

/-- Embeds `get_save_name` (utils.py, lines 12-20) at the character-list level:
strip, collapse whitespace runs to underscores, then delete every character
outside `[a-zA-Z0-9_-]`. -/
def get_save_name_chars (l : List Char) : List Char :=
  (collapseRuns false (stripChars l)).filter allowedChar

/-- Embeds `get_save_name` (utils.py, lines 12-20) at the string level. -/
def get_save_name (s : String) : String :=
  String.mk (get_save_name_chars s.data)

theorem allowedChar_not_pySpace (c : Char) (h : allowedChar c = true) :
    pySpace c = false := by
  by_contra hcon
  rw [Bool.not_eq_false] at hcon
  simp only [pySpace, Bool.or_eq_true, beq_iff_eq] at hcon
  rcases hcon with ((((rfl | rfl) | rfl) | rfl) | rfl) | rfl <;>
    simp [allowedChar] at h

theorem dropWhile_eq_self_of_none (p : Char → Bool) (l : List Char)
    (h : ∀ c ∈ l, p c = false) : l.dropWhile p = l := by
  cases l with
  | nil => rfl
  | cons x xs =>
    rw [List.dropWhile_cons]
    simp [h x (by simp)]

theorem stripChars_eq_self (l : List Char) (h : ∀ c ∈ l, pySpace c = false) :
    stripChars l = l := by
  unfold stripChars
  rw [dropWhile_eq_self_of_none pySpace l h,
    dropWhile_eq_self_of_none pySpace l.reverse (fun c hc => h c (by simpa using hc)),
    List.reverse_reverse]

theorem collapseRuns_eq_self (l : List Char) (h : ∀ c ∈ l, pySpace c = false) :
    collapseRuns false l = l := by
  induction l with
  | nil => rfl
  | cons x xs ih =>
    unfold collapseRuns
    rw [if_neg (by simp [h x (by simp)])]
    rw [ih (fun c hc => h c (by simp [hc]))]

theorem filter_eq_self_of_all (p : Char → Bool) (l : List Char)
    (h : ∀ c ∈ l, p c = true) : l.filter p = l := by
  induction l with
  | nil => rfl
  | cons x xs ih =>
    rw [List.filter_cons, if_pos (h x (by simp))]
    rw [ih (fun c hc => h c (by simp [hc]))]

theorem get_save_name_chars_idem (l : List Char) :
    get_save_name_chars (get_save_name_chars l) = get_save_name_chars l := by
  have hall : ∀ c ∈ get_save_name_chars l, allowedChar c = true := by
    intro c hc
    simp only [get_save_name_chars, List.mem_filter] at hc
    exact hc.2
  have hns : ∀ c ∈ get_save_name_chars l, pySpace c = false :=
    fun c hc => allowedChar_not_pySpace c (hall c hc)
  show (collapseRuns false (stripChars (get_save_name_chars l))).filter allowedChar
      = get_save_name_chars l
  rw [stripChars_eq_self _ hns, collapseRuns_eq_self _ hns,
    filter_eq_self_of_all _ _ hall]

/- ### Persistence (adventure.py to_dict/from_dict, app.py save/load) -/

/-- A value in the persisted JSON record: each of the five keys holds either
a string or an array of strings. -/
inductive JVal
  | str (s : String)
  | arr (xs : List String)
deriving DecidableEq

/-- Embeds `Adventure.to_dict` (adventure.py, lines 16-23): the record serialized by
`App.save_adventure` via `json.dump`. -/
def to_dict (a : Adventure) : List (String × JVal) :=
  [("name", .str a.name), ("context", .str a.context), ("memory", .str a.memory),
   ("actions", .arr a.actions), ("results", .arr a.results)]

/-- Embeds `Adventure.from_dict` (adventure.py, lines 25-30): assigns every one of the
five fields from the record, replacing whatever `self` held before (full
field-by-field replace, no merge). A missing key raises `KeyError` in Python;
here the lookup failure (or a value of the wrong shape) yields `none`. -/
def from_dict (a0 : Adventure) (d : List (String × JVal)) : Option Adventure :=
  match d.lookup "name", d.lookup "context", d.lookup "memory",
      d.lookup "actions", d.lookup "results" with
  | some (.str n), some (.str c), some (.str m), some (.arr as), some (.arr rs) =>
    some { a0 with name := n, context := c, memory := m, actions := as, results := rs }
  | _, _, _, _, _ => none

/-- The adventures directory abstracted as a key-value store of JSON records;
writing prepends, so the newest record for a key shadows older ones, matching
opening the save file in write mode, which overwrites it. -/
def SaveStore : Type := List (String × List (String × JVal))

/-- Embeds `App.save_adventure` (app.py, lines 156-162): writes the serialized record
under the key `get_save_name(self.adventure.name)`. -/
def save_adventure (store : SaveStore) (a : Adventure) : SaveStore :=
  (get_save_name a.name, to_dict a) :: store

/-- Embeds `App.load_adventure` (app.py, lines 164-170): reads the record under the
key `get_save_name(self.adventure.name)` and merges it into the current
adventure with `from_dict`; a missing file raises in Python (`none` here). -/
def load_adventure (store : SaveStore) (a : Adventure) : Option Adventure :=
  match List.lookup (get_save_name a.name) store with
  | some d => from_dict a d
  | none => none

theorem from_dict_to_dict (a b : Adventure) : from_dict b (to_dict a) = some a := by
  cases a
  rfl

/- ### Selection resolution (play.py, PlayScreen.on_entry_selected) -/

def digitVal (c : Char) : Nat := c.toNat - '0'.toNat

def natOfDigits (ds : List Char) : Nat :=
  ds.foldl (fun n c => n * 10 + digitVal c) 0

/-- Embeds `PlayScreen.on_entry_selected` (play.py, lines 220-242), reference-tag
parsing: matching the regex ([a-z])([0-9]+)? against the tag takes one lowercase letter as
the new `mode` and an optional run of digits; when digits are present,
`edit_index` becomes `int(int(digits) / 2)` (truncating division by two of a
nonnegative value, i.e. `Nat` division); when absent, `edit_index` keeps its
previous value (`none` here). A tag whose first character is not a lowercase
letter makes `re.match` return `None`, and `match.group(1)` then raises an
uncaught `AttributeError` (modelled by `none`). Any lowercase first letter is
accepted, whatever it is. -/
def resolveSelection (ref : List Char) : Option (Char × Option Nat) :=
  match ref with
  | [] => none
  | c :: rest =>
    if 'a' ≤ c && c ≤ 'z' then
      let ds := rest.takeWhile (fun d => '0' ≤ d && d ≤ '9')
      some (c, if ds = [] then none else some (natOfDigits ds / 2))
    else none

/- ### Generation orchestration (play.py, PlayScreen) -/

/-- How the bounded external generator call in `PlayScreen._generate` can
fail: `func_timeout` raises `FunctionTimedOut` when the wall-clock bound is
exceeded, and `AI.generate` may raise an ordinary `Exception` of its own. -/
inductive GenFailure
  | timedOut
  | raised
deriving DecidableEq

/-- The external generator under its wall-clock bound, abstracted as a
function of the prompt string. The numeric generation parameters
(max_length, beam_searches, temperature, top_k, top_p, repetition_penalty)
and the timeout value (604800 seconds when the configured timeout is
non-positive) are read from configuration and passed through verbatim, so
they are folded into this function. -/
def Generator : Type := String → Except GenFailure String

/-- The filter chains of `PlayScreen.filter_input` / `PlayScreen.filter_output`
(play.py, lines 282-304): `result = text; for f in filters: result = f(result)`. -/
def applyFilters (fs : List (String → String)) (s : String) : String :=
  fs.foldl (fun acc f => f acc) s

/-- The prompt-window computation of `PlayScreen._generate` (play.py, lines
193-197): `end` defaults to `len(story)`; the configured `memory` count is
replaced by `len(story)` when non-positive, else clipped to `min(memory, end)`;
the window handed to `get_ai_story` is `[end - memory, end)`. -/
def windowedEntries (memCfg : Int) (endArg : Option Int) (adv : Adventure) :
    List String :=
  let storyLen : Int := ((storyOf adv).length : Int)
  let e : Int := endArg.getD storyLen
  let mem : Int := if memCfg ≤ 0 then storyLen else min memCfg e
  get_ai_story adv (some (e - mem)) (some e)

/-- The prompt string of `_generate` (play.py, line 198):
a space-join of the windowed entries, followed by a space and the input
text when the text is non-empty. -/
def builtPrompt (memCfg : Int) (endArg : Option Int) (adv : Adventure)
    (text : String) : String :=
  String.intercalate " " (windowedEntries memCfg endArg adv)
    ++ (if text = "" then "" else " " ++ text)

/-- Embeds `PlayScreen._generate` (play.py, lines 184-218): builds the windowed
prompt, calls the generator under the timeout, applies the output filter
chain, and — only afterwards, and only when `record` — appends the input text
to `actions` and the filtered result to `results`. A timeout or generator
exception propagates (`Except.error`) with the adventure untouched, because
the two `append` calls are the last statements before the return. -/
def pGenerate (memCfg : Int) (outF : List (String → String)) (gen : Generator)
    (adv : Adventure) (text : String) (record : Bool) (endArg : Option Int) :
    Except GenFailure (String × Adventure) :=
  match gen (builtPrompt memCfg endArg adv text) with
  | .error e => .error e
  | .ok raw =>
    let result := applyFilters outF raw
    .ok (result,
      if record then
        { adv with actions := adv.actions ++ [text], results := adv.results ++ [result] }
      else adv)

/-- A Python exception escaping `_try_send` itself. Python deletes the
binding of an `except ... as result` target when the handler exits, so after
either handler runs, the trailing `return result` (play.py, line 182) raises
`UnboundLocalError`. -/
inductive PyErr
  | unboundLocalError
deriving DecidableEq

instance : DecidableEq (Except PyErr Unit) := fun a b =>
  match a, b with
  | .ok (), .ok () => isTrue rfl
  | .error .unboundLocalError, .error .unboundLocalError => isTrue rfl
  | .ok (), .error _ => isFalse (fun h => Except.noConfusion h)
  | .error _, .ok () => isFalse (fun h => Except.noConfusion h)

/-- The observable effect of one `PlayScreen._try_send` call: the value it
returns (or the exception it raises), the error-popup message it opened, and
the adventure afterwards. `outcome = .ok ()` models returning `None` — the
only value the function can actually return, since on the failure path the
`except ... as result` deletion makes `return result` raise. -/
structure TrySendResult where
  outcome : Except PyErr Unit
  popup : Option String
  adv : Adventure
deriving DecidableEq

/-- The error popup text for a generation timeout (play.py, lines 170-173). -/
def timeoutPopupMsg : String :=
  "The AI took too long to respond.\nPlease try something else."

/-- The error popup text for any other exception (play.py, lines 176-180). -/
def errorPopupMsg : String :=
  "An unexpected error occurred.\nPlease try something else,\nor adjust your settings."

/-- Embeds `PlayScreen._try_send` (play.py, lines 149-182). The empty mode string
runs the generation path; the edit modes c, a, r and m write the edited text straight
into the adventure (an out-of-range index raises `IndexError`, caught by the
generic handler: generic popup, then `UnboundLocalError` from `return result`);
any other mode matches no branch and the call does nothing. On a generation
timeout the timeout popup opens; on any other exception the generic popup
opens; in both cases the deleted `result` binding makes the final
`return result` raise `UnboundLocalError` — and the adventure is untouched. -/
def trySend (mode : String) (editIndex : Nat) (memCfg : Int)
    (outF : List (String → String)) (gen : Generator)
    (adv : Adventure) (text : String) : TrySendResult :=
  if mode = "" then
    match pGenerate memCfg outF gen adv text true none with
    | .ok (_, adv') => ⟨.ok (), none, adv'⟩
    | .error .timedOut => ⟨.error .unboundLocalError, some timeoutPopupMsg, adv⟩
    | .error .raised => ⟨.error .unboundLocalError, some errorPopupMsg, adv⟩
  else if mode = "c" then ⟨.ok (), none, { adv with context := text }⟩
  else if mode = "a" then
    if editIndex < adv.actions.length then
      ⟨.ok (), none, { adv with actions := adv.actions.set editIndex text }⟩
    else ⟨.error .unboundLocalError, some errorPopupMsg, adv⟩
  else if mode = "r" then
    if editIndex < adv.results.length then
      ⟨.ok (), none, { adv with results := adv.results.set editIndex text }⟩
    else ⟨.error .unboundLocalError, some errorPopupMsg, adv⟩
  else if mode = "m" then ⟨.ok (), none, { adv with memory := text }⟩
  else ⟨.ok (), none, adv⟩

/-- The session state touched by the send path: the adventure, the two input
widgets the worker thread disables, and whether a send worker is registered
under the send key of the threads table of the app. -/
structure SessionState where
  adv : Adventure
  inputDisabled : Bool
  sendDisabled : Bool
  sendThreadLive : Bool
deriving DecidableEq

/-- What one `PlayScreen.on_send` invocation can amount to: either the worker
runs (final session state plus the exception, if any, that killed the worker
thread), or the submit is rejected as busy. The second constructor exists to
state the busy-guard property of the spec; `on_send` never produces it. -/
inductive SubmitResult
  | ran (final : SessionState) (raised : Option PyErr)
  | rejectedBusy
deriving DecidableEq

/-- Embeds `PlayScreen.on_send` plus its worker `_on_send_thread` (play.py, lines
119-147), run to completion, in generation mode. `on_send` consults no state
before launching: it unconditionally overwrites the send entry of the threads table
with a fresh thread and starts it — there is no busy check anywhere on the
path. The worker filters the input, disables the input widgets, calls
`_try_send`, and then — only when `_try_send` returns instead of raising —
resets the mode, updates the UI, and re-enables the widgets; when `_try_send`
raises, the thread dies with the widgets still disabled. -/
def onSendSubmit (memCfg : Int) (inF outF : List (String → String))
    (gen : Generator) (st : SessionState) (text : String) : SubmitResult :=
  let t := applyFilters inF text
  let st1 : SessionState :=
    { st with inputDisabled := true, sendDisabled := true, sendThreadLive := true }
  let r := trySend "" 0 memCfg outF gen st1.adv t
  match r.outcome with
  | .ok _ =>
    .ran { st1 with adv := r.adv, inputDisabled := false, sendDisabled := false,
                    sendThreadLive := false } none
  | .error e => .ran { st1 with adv := r.adv } (some e)

/-- Modelled from the spec: `windowed_prompt(start, end)` with `start` and
`end` clamped into `[0, len(interleaved_story())]` and `start > end` treated
as an empty window (context and memory only, no error). Stated from the
wording of the spec, for comparison against `get_ai_story`. -/
def clampedWindowSpec (adv : Adventure) (s e : Int) : List String :=
  let story := storyOf adv
  let a := min (max s 0).toNat story.length
  let b := min (max e 0).toNat story.length
  ctxList adv ++ [adv.memory] ++ (if b < a then [] else (story.drop a).take (b - a))

/- ### Claim theorems -/

/-- C3: for every Story with `len(actions) == len(results) == n`, the
interleaved story view has length `2n`, `interleaved_story()[2i] == actions[i]`
and `interleaved_story()[2i+1] == results[i]` for all `i < n`; the full
transcript equals `[context] + interleaved_story()` when context is non-empty
and `interleaved_story()` otherwise. -/
theorem C3_interleaved_story_indexing (adv : Adventure) (n : Nat)
    (hA : adv.actions.length = n) (hR : adv.results.length = n) :
    (storyOf adv).length = 2 * n ∧
    (∀ i, i < n →
      (storyOf adv)[2 * i]? = adv.actions[i]? ∧
      (storyOf adv)[2 * i + 1]? = adv.results[i]?) ∧
    full_story adv =
      (if adv.context = "" then storyOf adv else adv.context :: storyOf adv) := by
  refine ⟨?_, ?_, ?_⟩
  · rw [storyOf, pairFlatten_zip_length, hA, hR]
    omega
  · intro i hi
    exact pairFlatten_zip_get adv.actions adv.results i (by omega) (by omega)
  · rw [full_story, ctxList]
    by_cases h : adv.context = "" <;> simp [h]

/-- A one-turn adventure used to instantiate the hypotheses of several claim
theorems on concrete data. -/
def advOne : Adventure := ⟨"w", "ctx", "mem", ["act"], ["res"]⟩

/-- Witness for C3 at a concrete one-turn Story. -/
theorem C3_interleaved_story_indexing_witness :
    (storyOf advOne).length = 2 * 1 ∧
    ((storyOf advOne)[2 * 0]? = advOne.actions[0]? ∧
      (storyOf advOne)[2 * 0 + 1]? = advOne.results[0]?) ∧
    full_story advOne =
      (if advOne.context = "" then storyOf advOne
       else advOne.context :: storyOf advOne) :=
  ⟨(C3_interleaved_story_indexing advOne 1 rfl rfl).1,
   (C3_interleaved_story_indexing advOne 1 rfl rfl).2.1 0 (by decide),
   (C3_interleaved_story_indexing advOne 1 rfl rfl).2.2⟩

/-- C10 (implicit): the interleaved story view is total for every pair of
lists `actions` and `results` — being a Lean function it never raises — and
always has exactly `2 * min(len(actions), len(results))` entries; in the
transient skew `len(actions) == len(results) + 1` the unmatched trailing
action is silently excluded (the view equals the view of the truncated
action list). -/
theorem C10_story_total_min_length (name ctx mem : String) (a r : List String) :
    (storyOf ⟨name, ctx, mem, a, r⟩).length = 2 * min a.length r.length ∧
    (a.length = r.length + 1 →
      storyOf ⟨name, ctx, mem, a, r⟩ = storyOf ⟨name, ctx, mem, a.take r.length, r⟩) := by
  constructor
  · exact pairFlatten_zip_length a r
  · intro _
    show pairFlatten (a.zip r) = pairFlatten ((a.take r.length).zip r)
    rw [← zip_take_left]

/-- Witness for C10 on a skewed pair (two actions, one result). -/
theorem C10_story_total_min_length_witness :
    (storyOf ⟨"w", "c", "m", ["a1", "a2"], ["r1"]⟩).length = 2 * min 2 1 ∧
    storyOf ⟨"w", "c", "m", ["a1", "a2"], ["r1"]⟩ =
      storyOf ⟨"w", "c", "m", (["a1", "a2"] : List String).take 1, ["r1"]⟩ :=
  ⟨(C10_story_total_min_length "w" "c" "m" ["a1", "a2"] ["r1"]).1,
   (C10_story_total_min_length "w" "c" "m" ["a1", "a2"] ["r1"]).2 rfl⟩

/-- C7: `save_name` strips leading/trailing whitespace, collapses every
internal whitespace run to a single separator, then removes every character
that is not alphanumeric, `_` or `-` (this is the definition of
`get_save_name`); it is idempotent, and `save_name("My Game!! 2")` is
`"My_Game_2"`. -/
theorem C7_save_name_idempotent :
    (∀ x : String, get_save_name (get_save_name x) = get_save_name x) ∧
    get_save_name "My Game!! 2" = "My_Game_2" := by
  constructor
  · intro x
    show String.mk (get_save_name_chars (String.mk (get_save_name_chars x.data)).data)
        = String.mk (get_save_name_chars x.data)
    rw [show (String.mk (get_save_name_chars x.data)).data
          = get_save_name_chars x.data from rfl,
      get_save_name_chars_idem]
  · decide

/-- C8: serializing a Story with `to_dict` and merging the record back with
`from_dict` reconstructs the identical five fields `name, context, memory,
actions, results`, whatever the target Story previously held (full
field-by-field replace); and saving through the store keyed by
`save_name(name)` and loading it back reconstructs the Story. -/
theorem C8_save_load_round_trip (store : SaveStore) (a b : Adventure) :
    from_dict b (to_dict a) = some a ∧
    load_adventure (save_adventure store a) a = some a := by
  refine ⟨from_dict_to_dict a b, ?_⟩
  show (match List.lookup (get_save_name a.name)
        ((get_save_name a.name, to_dict a) :: store) with
      | some d => from_dict a d
      | none => none) = some a
  rw [List.lookup_cons_self]
  exact from_dict_to_dict a a

/-- C6 (corrected claim refuted here): the tag `"x"`, whose kind letter is
unknown, is nevertheless accepted by the selection parser — `re.match` on
([a-z])([0-9]+)? succeeds, the mode becomes the letter x and no error of any kind
is raised — contradicting the claim that it fails with `MALFORMED_SELECTION`. -/
theorem C6_counterexample_unknown_tag_accepted :
    resolveSelection "x".data = some ('x', none) ∧
    resolveSelection "x".data ≠ none := by
  constructor
  · decide
  · decide

/-- C6 (amended): selection resolution maps the tag a4 to (a, 2), the tag r5
to (r, 2) and the tag c to (c, no index), converting the interleaved index by
integer division by two; but a tag with an unknown lowercase kind letter such
as x is accepted (the mode is set to the letter x, and a subsequent one of `trySend`
in that mode matches no branch and does nothing); only a tag that does not
start with a lowercase letter, such as `"4"`, fails — with an uncaught
`AttributeError`, not a `MALFORMED_SELECTION` error. -/
theorem C6_selection_resolution_amended :
    resolveSelection "a4".data = some ('a', some 2) ∧
    resolveSelection "r5".data = some ('r', some 2) ∧
    resolveSelection "c".data = some ('c', none) ∧
    resolveSelection "x".data = some ('x', none) ∧
    resolveSelection "4".data = none ∧
    (∀ (editIndex : Nat) (memCfg : Int) (outF : List (String → String))
        (gen : Generator) (adv : Adventure) (text : String),
      trySend "x" editIndex memCfg outF gen adv text = ⟨.ok (), none, adv⟩) := by
  refine ⟨by decide, by decide, by decide, by decide, by decide, ?_⟩
  intro editIndex memCfg outF gen adv text
  rfl

/-- C1: on the generation path (the empty mode), if the external generator call
times out or raises, the Story is left unmodified by `submit`: the whole
adventure — hence `len(actions)`, `len(results)` and every existing entry —
is identical before and after, and in particular the submitted (filtered)
input text is not appended to `actions`. -/
theorem C1_generation_failure_leaves_story_unmodified (memCfg : Int)
    (outF : List (String → String)) (gen : Generator) (adv : Adventure)
    (text : String) (e : GenFailure)
    (h : gen (builtPrompt memCfg none adv text) = .error e) :
    (trySend "" 0 memCfg outF gen adv text).adv = adv ∧
    (trySend "" 0 memCfg outF gen adv text).adv.actions = adv.actions ∧
    (trySend "" 0 memCfg outF gen adv text).adv.results = adv.results := by
  have hmain : (trySend "" 0 memCfg outF gen adv text).adv = adv := by
    show (match pGenerate memCfg outF gen adv text true none with
        | .ok (_, adv') => (⟨.ok (), none, adv'⟩ : TrySendResult)
        | .error .timedOut => ⟨.error .unboundLocalError, some timeoutPopupMsg, adv⟩
        | .error .raised => ⟨.error .unboundLocalError, some errorPopupMsg, adv⟩).adv
      = adv
    rw [pGenerate, h]
    cases e <;> rfl
  exact ⟨hmain, by rw [hmain], by rw [hmain]⟩

/-- A generator that always exceeds its wall-clock bound. -/
def genAlwaysTimeout : Generator := fun _ => .error .timedOut

/-- A generator that always raises an ordinary exception. -/
def genAlwaysRaises : Generator := fun _ => .error .raised

/-- Witness for C1: a concrete timed-out submit leaves the concrete Story
unchanged. -/
theorem C1_generation_failure_leaves_story_unmodified_witness :
    (trySend "" 0 20 [] genAlwaysTimeout advOne "go").adv = advOne ∧
    (trySend "" 0 20 [] genAlwaysTimeout advOne "go").adv.actions = advOne.actions ∧
    (trySend "" 0 20 [] genAlwaysTimeout advOne "go").adv.results = advOne.results :=
  C1_generation_failure_leaves_story_unmodified 20 [] genAlwaysTimeout advOne "go"
    .timedOut rfl

/-- C2 (code bug evidenced here): the generation failure is caught and a
user-visible popup is opened whose message distinguishes the timeout case
from the generic error case — but `_try_send` does not then return the error:
Python deletes the `except ... as result` binding when the handler exits, so
`return result` raises `UnboundLocalError`, which propagates past `_try_send`
and kills the send worker. The claim that no exception propagates past
`submit` is therefore violated by the code. -/
theorem C2_bug_unbound_local_after_failure :
    (trySend "" 0 20 [] genAlwaysTimeout advOne "go").outcome
        = .error .unboundLocalError ∧
    (trySend "" 0 20 [] genAlwaysTimeout advOne "go").popup = some timeoutPopupMsg ∧
    (trySend "" 0 20 [] genAlwaysRaises advOne "go").outcome
        = .error .unboundLocalError ∧
    (trySend "" 0 20 [] genAlwaysRaises advOne "go").popup = some errorPopupMsg ∧
    timeoutPopupMsg ≠ errorPopupMsg := by
  refine ⟨rfl, rfl, rfl, rfl, by decide⟩

/-- C9 (corrected claim refuted here): a second submit issued while a prior
submit is still in flight (worker registered, widgets disabled) is not
rejected with a `BUSY` error — it runs, and it modifies the Story. -/
theorem C9_counterexample_no_busy_rejection :
    onSendSubmit 20 [] [] (fun _ => .ok "out") ⟨advOne, true, true, true⟩ "hi"
        ≠ SubmitResult.rejectedBusy ∧
    onSendSubmit 20 [] [] (fun _ => .ok "out") ⟨advOne, true, true, true⟩ "hi"
        = SubmitResult.ran
            ⟨⟨"w", "ctx", "mem", ["act", "hi"], ["res", "out"]⟩, false, false, false⟩
            none ∧
    (⟨"w", "ctx", "mem", ["act", "hi"], ["res", "out"]⟩ : Adventure) ≠ advOne := by
  refine ⟨by decide, by decide, by decide⟩

/-- C9 (amended): the core enforces no busy guard at all: `on_send` launches
the generation worker unconditionally, never failing with `BUSY`, and its
behaviour is identical whether or not a prior submit is still in flight
(worker registered and input controls disabled); the disabled input widgets
are only a UI-level mirror set from inside the worker itself. -/
theorem C9_amended_no_busy_guard (memCfg : Int)
    (inF outF : List (String → String)) (gen : Generator)
    (st : SessionState) (text : String) :
    onSendSubmit memCfg inF outF gen st text ≠ SubmitResult.rejectedBusy ∧
    onSendSubmit memCfg inF outF gen st text =
      onSendSubmit memCfg inF outF gen
        { st with inputDisabled := true, sendDisabled := true,
                  sendThreadLive := true } text := by
  constructor
  · show (match (trySend "" 0 memCfg outF gen st.adv (applyFilters inF text)).outcome
          with
        | .ok _ => SubmitResult.ran _ none
        | .error e => SubmitResult.ran _ (some e)) ≠ SubmitResult.rejectedBusy
    cases (trySend "" 0 memCfg outF gen st.adv (applyFilters inF text)).outcome with
    | ok _ => exact fun h => SubmitResult.noConfusion h
    | error e => exact fun h => SubmitResult.noConfusion h
  · rfl

theorem pySlice_full (l : List String) : pySlice l 0 (l.length : Int) = l := by
  show (l.drop (pySliceIdx l.length 0)).take
      (pySliceIdx l.length (l.length : Int) - pySliceIdx l.length 0) = l
  have h0 : pySliceIdx l.length 0 = 0 := by
    unfold pySliceIdx
    rw [if_neg (by omega)]
    omega
  have h1 : pySliceIdx l.length (l.length : Int) = l.length := by
    unfold pySliceIdx
    rw [if_neg (by omega)]
    omega
  rw [h0, h1, List.drop_zero, Nat.sub_zero, List.take_length]

theorem pySlice_suffix (l : List String) (k : Int) (hk : 0 < k) :
    pySlice l ((l.length : Int) - min k (l.length : Int)) (l.length : Int)
      = l.drop (l.length - min k.toNat l.length) := by
  show (l.drop (pySliceIdx l.length ((l.length : Int) - min k (l.length : Int)))).take
      (pySliceIdx l.length (l.length : Int)
        - pySliceIdx l.length ((l.length : Int) - min k (l.length : Int))) = _
  have ha : pySliceIdx l.length ((l.length : Int) - min k (l.length : Int))
      = l.length - min k.toNat l.length := by
    unfold pySliceIdx
    rw [if_neg (by omega)]
    omega
  have hb : pySliceIdx l.length (l.length : Int) = l.length := by
    unfold pySliceIdx
    rw [if_neg (by omega)]
    omega
  rw [ha, hb]
  have hlen : l.length - (l.length - min k.toNat l.length)
      = (l.drop (l.length - min k.toNat l.length)).length := by
    rw [List.length_drop]
  rw [hlen, List.take_length]

/-- C4: for a Story with `len(actions) == len(results) == n`, the windowed
prompt built by `_generate` with configured `memory <= 0` and the default
`end` contains the same entries as the full transcript with the memory string
inserted after the (optional) context; with `memory = k > 0` and `end = 2n`
it contains the context (if non-empty), then the memory, then exactly the
last `min(k, 2n)` interleaved entries. -/
theorem C4_windowed_prompt_contents (adv : Adventure) (n : Nat) (mcfg k : Int)
    (hA : adv.actions.length = n) (hR : adv.results.length = n)
    (hm : mcfg ≤ 0) (hk : 0 < k) :
    windowedEntries mcfg none adv = ctxList adv ++ adv.memory :: storyOf adv ∧
    full_story adv = ctxList adv ++ storyOf adv ∧
    windowedEntries k (some ((2 * n : Nat) : Int)) adv
      = ctxList adv ++ adv.memory ::
          (storyOf adv).drop (2 * n - min k.toNat (2 * n)) ∧
    ((storyOf adv).drop (2 * n - min k.toNat (2 * n))).length
      = min k.toNat (2 * n) := by
  have hL : (storyOf adv).length = 2 * n := by
    rw [storyOf, pairFlatten_zip_length, hA, hR]
    omega
  have hGet : ∀ (x y : Int), get_ai_story adv (some x) (some y)
      = ctxList adv ++ [adv.memory] ++ pySlice (storyOf adv) x y :=
    fun _ _ => rfl
  refine ⟨?_, rfl, ?_, ?_⟩
  · simp only [windowedEntries, Option.getD_none]
    rw [if_pos hm, Int.sub_self, hGet, pySlice_full]
    simp
  · simp only [windowedEntries, Option.getD_some]
    rw [if_neg (by omega : ¬ k ≤ 0)]
    have hcast : ((2 * n : Nat) : Int) = ((storyOf adv).length : Int) := by
      rw [hL]
    rw [hcast, hGet, pySlice_suffix _ k hk, hL]
    simp
  · rw [List.length_drop, hL]
    omega

/-- Witness for C4 at a concrete one-turn Story, `memory = -3` for the
unbounded case and `memory = 1`, `end = 2` for the bounded case. -/
theorem C4_windowed_prompt_contents_witness :
    windowedEntries (-3) none advOne = ctxList advOne ++ advOne.memory :: storyOf advOne ∧
    full_story advOne = ctxList advOne ++ storyOf advOne ∧
    windowedEntries 1 (some ((2 * 1 : Nat) : Int)) advOne
      = ctxList advOne ++ advOne.memory ::
          (storyOf advOne).drop (2 * 1 - min (Int.toNat 1) (2 * 1)) ∧
    ((storyOf advOne).drop (2 * 1 - min (Int.toNat 1) (2 * 1))).length
      = min (Int.toNat 1) (2 * 1) :=
  C4_windowed_prompt_contents advOne 1 (-3) 1 rfl rfl (by decide) (by decide)

/-- The one-turn Story with empty context on which the claimed clamping
behaviour of `windowed_prompt` fails for a negative start index. -/
def advNeg : Adventure := ⟨"n", "", "m", ["a"], ["r"]⟩

/-- C5 (corrected claim refuted here): `get_ai_story` does not behave as if
`start` were clamped into `[0, len(interleaved_story())]`: on a two-entry
story, `start = -1` selects from the end per Python slice semantics
(yielding only the last entry), while clamping `-1` to `0` would yield the
whole story. -/
theorem C5_counterexample_negative_start :
    get_ai_story advNeg (some (-1)) (some 2) ≠ clampedWindowSpec advNeg (-1) 2 := by
  decide

/-- C5 (amended): for all **nonnegative** `start` and `end`,
`windowed_prompt(start, end)` behaves as if both were clamped into
`[0, len(interleaved_story())]`, with `start > end` yielding the empty window
(context and memory only) and no error; a **negative** index, however, is
interpreted per Python slice semantics — it is first offset by the story
length (then clamped), so a negative start selects from the end of the story,
not from index 0. -/
theorem C5_amended_python_slice_semantics (adv : Adventure) (s e : Int) :
    (0 ≤ s → 0 ≤ e →
      get_ai_story adv (some s) (some e) = clampedWindowSpec adv s e) ∧
    (s < 0 → 0 ≤ e →
      get_ai_story adv (some s) (some e)
        = clampedWindowSpec adv (s + ((storyOf adv).length : Int)) e) := by
  have hGet : ∀ (x y : Int), get_ai_story adv (some x) (some y)
      = ctxList adv ++ [adv.memory] ++ pySlice (storyOf adv) x y :=
    fun _ _ => rfl
  have hClamp : ∀ (x y : Int), clampedWindowSpec adv x y
      = ctxList adv ++ [adv.memory] ++
        (if min (max y 0).toNat (storyOf adv).length
            < min (max x 0).toNat (storyOf adv).length then []
         else ((storyOf adv).drop (min (max x 0).toNat (storyOf adv).length)).take
            (min (max y 0).toNat (storyOf adv).length
              - min (max x 0).toNat (storyOf adv).length)) :=
    fun _ _ => rfl
  have hSlice : ∀ (x : Int), pySlice (storyOf adv) x e
      = ((storyOf adv).drop (pySliceIdx (storyOf adv).length x)).take
          (pySliceIdx (storyOf adv).length e - pySliceIdx (storyOf adv).length x) :=
    fun _ => rfl
  constructor
  · intro hs he
    rw [hGet, hClamp, hSlice]
    have has : pySliceIdx (storyOf adv).length s
        = min (max s 0).toNat (storyOf adv).length := by
      unfold pySliceIdx
      rw [if_neg (by omega)]
      omega
    have hbe : pySliceIdx (storyOf adv).length e
        = min (max e 0).toNat (storyOf adv).length := by
      unfold pySliceIdx
      rw [if_neg (by omega)]
      omega
    rw [has, hbe]
    by_cases hab : min (max e 0).toNat (storyOf adv).length
        < min (max s 0).toNat (storyOf adv).length
    · rw [if_pos hab, Nat.sub_eq_zero_of_le (Nat.le_of_lt hab), List.take_zero]
    · rw [if_neg hab]
  · intro hs he
    rw [hGet, hClamp, hSlice]
    have has : pySliceIdx (storyOf adv).length s
        = min (max (s + ((storyOf adv).length : Int)) 0).toNat (storyOf adv).length := by
      unfold pySliceIdx
      rw [if_pos hs]
      omega
    have hbe : pySliceIdx (storyOf adv).length e
        = min (max e 0).toNat (storyOf adv).length := by
      unfold pySliceIdx
      rw [if_neg (by omega)]
      omega
    rw [has, hbe]
    by_cases hab : min (max e 0).toNat (storyOf adv).length
        < min (max (s + ((storyOf adv).length : Int)) 0).toNat (storyOf adv).length
    · rw [if_pos hab, Nat.sub_eq_zero_of_le (Nat.le_of_lt hab), List.take_zero]
    · rw [if_neg hab]

/-- Witness for C5 (amended) on the concrete two-entry story: nonnegative
indices agree with the clamped view; `start = -1` agrees with the clamped
view taken at `-1 + len`. -/
theorem C5_amended_python_slice_semantics_witness :
    get_ai_story advNeg (some 0) (some 2) = clampedWindowSpec advNeg 0 2 ∧
    get_ai_story advNeg (some (-1)) (some 2)
      = clampedWindowSpec advNeg ((-1) + ((storyOf advNeg).length : Int)) 2 :=
  ⟨(C5_amended_python_slice_semantics advNeg 0 2).1 (by decide) (by decide),
   (C5_amended_python_slice_semantics advNeg (-1) 2).2 (by decide) (by decide)⟩

end ReZero
